import Mathlib

/-!
Verification development for the ocr-gaby service layer.

The definitions below are a shallow embedding of the chunked-upload
session store and batch dispatcher of src/api.py and src/batch_cli.py,
and of the OCR extraction wrapper OCRProcessor.extract_text of
src/cli.py.  Byte strings are modelled as Lean strings, the process
file system as an association list from path to content (presence of a
key means the file exists), Python floats as exact rationals, and the
external OCR and image libraries as an explicit environment of fallible
calls.
-/

deriving instance DecidableEq for Except

namespace OcrGaby

/-- Constant ALLOWED_EXTENSIONS from api.py line 33. -/
def ALLOWED_EXTENSIONS : List String :=
  ["jpg", "jpeg", "png", "bmp", "tiff", "tif", "gif", "webp", "pdf"]

/-- Constant MAX_FILE_SIZE = 50 * 1024 * 1024 from api.py line 34. -/
def MAX_FILE_SIZE : Int := 50 * 1024 * 1024

/-- Constant CHUNK_SIZE = 1024 * 1024 from api.py line 35. -/
def CHUNK_SIZE : Nat := 1024 * 1024

/-- Constant UPLOAD_FOLDER = tempfile.gettempdir() from api.py line 32,
modelled as the usual temporary directory path. -/
def UPLOAD_FOLDER : String := "/tmp"

/-- Python os.path.join of the upload folder and a file name. -/
def pathJoin (dir name : String) : String := dir ++ "/" ++ name

/-- Characters after the last dot of a name; none when there is no dot.
This is the Python expression name.rsplit(".", 1)[1] guarded by the
containment test for a dot. -/
def afterLastDot : List Char → Option (List Char)
  | [] => none
  | c :: rest =>
      match afterLastDot rest with
      | some s => some s
      | none => if c = '.' then some rest else none

/-- Function allowed_file from api.py lines 44-46: the name contains a
dot and the lower-cased extension after the last dot is in
ALLOWED_EXTENSIONS. -/
def allowed_file (filename : String) : Bool :=
  match afterLastDot filename.data with
  | none => false
  | some ext => ALLOWED_EXTENSIONS.contains (String.mk (ext.map Char.toLower))

/-- Modelled from the spec: the werkzeug sanitizer secure_filename (an
external library; the spec says only that the target filename is
sanitized).  It keeps ASCII alphanumerics, dots, dashes and underscores
and drops everything else; on the inputs the claims exercise (the empty
string and plain names such as a.png or a.txt) this coincides with the
library. -/
def secure_filename (s : String) : String :=
  String.mk (s.data.filter fun c => c.isAlphanum || c == '.' || c == '-' || c == '_')

/-- Map lookup over an association list keyed by strings.  Both the
process file system (path to content) and the UPLOAD_SESSIONS dict are
modelled this way. -/
def assocLookup {β : Type} : List (String × β) → String → Option β
  | [], _ => none
  | (q, c) :: rest, p => if q = p then some c else assocLookup rest p

/-- Key deletion (os.remove, and del on the sessions dict). -/
def assocRemove {β : Type} (l : List (String × β)) (p : String) : List (String × β) :=
  l.filter fun e => e.1 != p

/-- Key update (writing a file, and assignment into the sessions dict). -/
def assocSet {β : Type} (l : List (String × β)) (p : String) (c : β) : List (String × β) :=
  (p, c) :: assocRemove l p

/-- Appending bytes to a file opened in append mode: the file is
created if it does not exist yet. -/
def fsAppend (fs : List (String × String)) (p b : String) : List (String × String) :=
  match assocLookup fs p with
  | none => assocSet fs p b
  | some c => assocSet fs p (c ++ b)

/-- One entry of UPLOAD_SESSIONS (api.py lines 451-457).  The field
received_chunks is a Python list; indices arrive as arbitrary integers
and are appended in arrival order. -/
structure UploadSession where
  filename : String
  filesize : Int
  chunk_count : Int
  received_chunks : List Int
  temp_path : String
deriving Repr, DecidableEq

/-- The whole mutable state the chunked-upload endpoints touch: the
UPLOAD_SESSIONS dict and the file system. -/
structure ServerState where
  sessions : List (String × UploadSession)
  files : List (String × String)
deriving Repr, DecidableEq

/-- State of a process that has just started: no sessions, no
temporary upload files. -/
def emptyState : ServerState := { sessions := [], files := [] }

/-- Error outcomes of the chunked-upload endpoints. -/
inductive UploadError where
  /-- Status 400 from a validation failure (InvalidInput). -/
  | invalidInput (msg : String)
  /-- Status 400 for an unknown upload session (NotFound). -/
  | notFound
  /-- Status 400 reporting received and total counts (IncompleteUpload). -/
  | incomplete (received : Nat) (total : Int)
  /-- Status 500 from an exception raised by the processing step. -/
  | processingFailed (msg : String)
  /-- Status 500 from an exception outside the inner try block, for
  example os.rename on a missing temp file; no cleanup happens here. -/
  | internalError (msg : String)
deriving Repr, DecidableEq

/-- Successful response body of upload_chunk (api.py lines 517-523). -/
structure ChunkAck where
  chunk_index : Int
  received : Nat
  total : Int
  is_complete : Bool
deriving Repr, DecidableEq

/-- Endpoint init_chunked_upload from api.py lines 412-469.  The uuid4
session id is passed in as the argument fresh (its practical
collision-freeness becomes a hypothesis where uniqueness matters).
Note the source creates only the temp path string, never the file. -/
def init_chunked_upload (st : ServerState) (fresh : String)
    (filename0 : String) (filesize chunk_count : Int) :
    Except UploadError String × ServerState :=
  let filename := secure_filename filename0
  if filename.data.isEmpty || !allowed_file filename then
    (.error (.invalidInput "Invalid filename or file type"), st)
  else if filesize > MAX_FILE_SIZE then
    (.error (.invalidInput "File too large"), st)
  else
    let temp_path := pathJoin UPLOAD_FOLDER ("upload_" ++ fresh)
    let sess : UploadSession :=
      { filename := filename, filesize := filesize, chunk_count := chunk_count
        received_chunks := [], temp_path := temp_path }
    (.ok fresh, { st with sessions := assocSet st.sessions fresh sess })

/-- Endpoint upload_chunk from api.py lines 472-529: reject unknown
sessions and negative indices, then append the bytes to the temp file
(opened in append mode, so the file is created on first use) and record
the index in arrival order.  There is no duplicate check and no upper
bound check on the index. -/
def upload_chunk (st : ServerState) (upload_id : String)
    (chunk_index : Int) (bytes : String) :
    Except UploadError ChunkAck × ServerState :=
  match assocLookup st.sessions upload_id with
  | none => (.error .notFound, st)
  | some sess =>
      if chunk_index < 0 then
        (.error (.invalidInput "Invalid chunk index"), st)
      else
        let files1 := fsAppend st.files sess.temp_path bytes
        let sess1 := { sess with received_chunks := sess.received_chunks ++ [chunk_index] }
        let ack : ChunkAck :=
          { chunk_index := chunk_index
            received := sess1.received_chunks.length
            total := sess.chunk_count
            is_complete := (sess1.received_chunks.length : Int) == sess.chunk_count }
        (.ok ack, { sessions := assocSet st.sessions upload_id sess1, files := files1 })

/-- Endpoint complete_chunked_upload from api.py lines 532-612, generic
in the processing step (the body of the inner try block: the call
ocr_processor.process_image plus the optional Gemini call), which
receives the reassembled file content.  On processing failure the final
file is removed and the session deleted before the error is surfaced;
an os.rename failure (missing temp file) escapes to the outer handler
with no cleanup. -/
def complete_chunked_upload {α : Type} (procFn : String → Except String α)
    (st : ServerState) (upload_id : String) :
    Except UploadError α × ServerState :=
  match assocLookup st.sessions upload_id with
  | none => (.error .notFound, st)
  | some sess =>
      if (sess.received_chunks.length : Int) ≠ sess.chunk_count then
        (.error (.incomplete sess.received_chunks.length sess.chunk_count), st)
      else
        match assocLookup st.files sess.temp_path with
        | none => (.error (.internalError "os.rename: temp file not found"), st)
        | some content =>
            let final_path := pathJoin UPLOAD_FOLDER sess.filename
            let files1 := assocSet (assocRemove st.files sess.temp_path) final_path content
            match procFn content with
            | .ok r =>
                (.ok r,
                 { sessions := assocRemove st.sessions upload_id
                   files := assocRemove files1 final_path })
            | .error e =>
                (.error (.processingFailed e),
                 { sessions := assocRemove st.sessions upload_id
                   files := assocRemove files1 final_path })

/-- Endpoint cancel_chunked_upload from api.py lines 615-644. -/
def cancel_chunked_upload (st : ServerState) (upload_id : String) :
    Except UploadError Unit × ServerState :=
  match assocLookup st.sessions upload_id with
  | none => (.error .notFound, st)
  | some sess =>
      (.ok (),
       { sessions := assocRemove st.sessions upload_id
         files := assocRemove st.files sess.temp_path })

/-- Method names defined on the class OCRProcessor in src/cli.py.
Notably process_image is NOT among them, although api.py line 574
calls it. -/
def OCRProcessorMethods : List String :=
  ["__init__", "extract_text", "_preprocess_image", "get_available_languages"]

/-- Processing step the complete endpoint actually runs: the attribute
access ocr_processor.process_image (api.py line 574) raises
AttributeError because OCRProcessor has no such method (see
OCRProcessorMethods), so the step fails unconditionally. -/
def process_image_call {α : Type} : String → Except String α :=
  fun _ => .error "AttributeError: OCRProcessor object has no attribute process_image"

/-- External calls extract_text makes, over an abstract image type:
Image.open, the _preprocess_image pipeline (cv2 grayscale, then median
blur, then Otsu threshold), pytesseract.image_to_string, and
pytesseract.image_to_data (of which only the conf column is used).
Each call either returns a value or raises, modelled as Except. -/
structure OcrEnv (Img : Type) where
  imageOpen : String → Except String Img
  preprocessImage : String → Except String Img
  imageToString : Img → String → String → Except String String
  imageToData : Img → String → String → Except String (List Int)

/-- Helper for the Python no-argument split: accumulate maximal runs of
non-whitespace characters. -/
def pyWordsAux : List Char → List Char → List (List Char)
  | [], acc => if acc.isEmpty then [] else [acc.reverse]
  | c :: rest, acc =>
      if c.isWhitespace then
        if acc.isEmpty then pyWordsAux rest []
        else acc.reverse :: pyWordsAux rest []
      else pyWordsAux rest (c :: acc)

/-- Python text.split() with no argument (split on whitespace runs,
dropping empties). -/
def pySplitWs (s : String) : List String := (pyWordsAux s.data []).map String.mk

/-- Python text.strip(). -/
def pyStrip (s : String) : String :=
  String.mk (((s.data.dropWhile Char.isWhitespace).reverse.dropWhile Char.isWhitespace).reverse)

/-- Round-half-to-even on an exact rational, the behaviour of the
Python builtin round on the values the claims exercise. -/
def roundHalfEven (x : Rat) : Int :=
  let f := x.floor
  if x - f < 1/2 then f
  else if 1/2 < x - f then f + 1
  else if f % 2 = 0 then f else f + 1

/-- Python round(x, 2) (cli.py line 73), modelled on exact rationals. -/
def pyRound2 (x : Rat) : Rat := (roundHalfEven (x * 100) : Rat) / 100

/-- Lines 68-69 of cli.py: keep the confidences strictly greater than
zero, then divide their sum by their count, or report 0 when the
filtered list is empty. -/
def avgConfidence (confs : List Int) : Rat :=
  let confidences := confs.filter fun c => decide (0 < c)
  if confidences.isEmpty then 0
  else ((confidences.sum : Int) : Rat) / (confidences.length : Rat)

/-- Result dictionary of extract_text.  The error dictionary in the
source has only the keys error, text and confidence; the remaining
fields are 0 or empty here. -/
structure ExtractResult where
  text : String
  confidence : Rat
  word_count : Nat
  character_count : Nat
  language : String
  config : String
  error : Option String
deriving Repr, DecidableEq

/-- Lines 80-85 of cli.py: the dictionary returned from the except arm. -/
def errorResult (e : String) : ExtractResult :=
  { text := "", confidence := 0, word_count := 0, character_count := 0
    language := "", config := "", error := some e }

/-- Method OCRProcessor.extract_text from cli.py lines 36-85: load (or
preprocess) the image, run the OCR engine for text and confidence data,
and report the rounded mean of the positive confidences; any exception
from the external calls is caught and turned into the error dictionary,
so the function is total at its interface. -/
def extract_text {Img : Type} (env : OcrEnv Img) (image_path language config : String)
    (preprocess : Bool) : ExtractResult :=
  let body : Except String ExtractResult :=
    Except.bind
      (if preprocess then env.preprocessImage image_path else env.imageOpen image_path)
      fun image =>
        Except.bind (env.imageToString image language config) fun text =>
          Except.bind (env.imageToData image language config) fun data =>
            .ok { text := pyStrip text
                  confidence := pyRound2 (avgConfidence data)
                  word_count := (pySplitWs text).length
                  character_count := text.length
                  language := language
                  config := config
                  error := none }
  match body with
  | .ok r => r
  | .error e => errorResult e

/-- Environment in which every external call succeeds, the OCR engine
returns the given text, and the confidence column is the given list.
Used to evaluate extract_text at concrete inputs. -/
def mkOkEnv (text : String) (confs : List Int) : OcrEnv Unit :=
  { imageOpen := fun _ => .ok ()
    preprocessImage := fun _ => .ok ()
    imageToString := fun _ _ _ => .ok text
    imageToData := fun _ _ _ => .ok confs }

/-- Second definition for C8, following the words of the spec: the
arithmetic mean of the confidences strictly greater than zero. -/
def specMeanPositive (confs : List Int) : Rat :=
  (((confs.filter fun c => decide (0 < c)).sum : Int) : Rat) /
    ((confs.filter fun c => decide (0 < c)).length : Rat)

/-- Loop over completed futures in batch_cli.py lines 246-282 with the
continue-on-error flag set: successes and failures are collected
independently.  batch_cli.py submits every file to the worker pool up
front and folds over the futures in completion order; worker count and
scheduling only influence that order, so the embedding takes the
observation order as an arbitrary permutation of the dispatched files.
A per-file outcome is ok (no error key in the result dict) or error (an
error key, or an exception raised by the future). -/
def batchCollect {α : Type} (outcome : String → Except String α) :
    List String → List α × List (String × String)
  | [] => ([], [])
  | f :: rest =>
      let acc := batchCollect outcome rest
      match outcome f with
      | .ok r => (r :: acc.1, acc.2)
      | .error e => (acc.1, (f, e) :: acc.2)

/-- Loop over completed futures in batch_cli.py lines 246-282 without
the continue-on-error flag: the first failure observed calls
sys.exit(1), so every later future result is discarded. -/
def batchFailFast {α : Type} (outcome : String → Except String α) :
    List String → List α × Option (String × String)
  | [] => ([], none)
  | f :: rest =>
      match outcome f with
      | .ok r =>
          let acc := batchFailFast outcome rest
          (r :: acc.1, acc.2)
      | .error e => ([], some (f, e))

/-- Loop of the batch OCR endpoint, api.py lines 341-387: a file with a
disallowed extension is recorded in the same failed collection as a
processing failure; every other file is processed and lands in exactly
one of the two collections. -/
def batch_process {α : Type} (outcome : String → Except String α) :
    List String → List α × List (String × String)
  | [] => ([], [])
  | f :: rest =>
      let acc := batch_process outcome rest
      if !allowed_file f then (acc.1, (f, "File type not allowed") :: acc.2)
      else
        match outcome f with
        | .ok r => (r :: acc.1, acc.2)
        | .error e => (acc.1, (f, e) :: acc.2)

/-- One request against the chunked-upload endpoints. -/
inductive UploadStep : ServerState → ServerState → Prop where
  | init (st : ServerState) (fresh filename : String) (filesize chunk_count : Int) :
      UploadStep st (init_chunked_upload st fresh filename filesize chunk_count).2
  | chunk (st : ServerState) (id : String) (idx : Int) (bytes : String) :
      UploadStep st (upload_chunk st id idx bytes).2
  | complete (st : ServerState) (id : String) (procFn : String → Except String Unit) :
      UploadStep st (complete_chunked_upload procFn st id).2
  | cancel (st : ServerState) (id : String) :
      UploadStep st (cancel_chunked_upload st id).2

/-- States reachable from process start through the four endpoints. -/
inductive Reachable : ServerState → Prop where
  | empty : Reachable emptyState
  | step {s s2 : ServerState} : Reachable s → UploadStep s s2 → Reachable s2

/-- Amended store invariant for C2: every recorded chunk index of every
live session is nonnegative (the only bound upload_chunk enforces). -/
def ReceivedNonneg (st : ServerState) : Prop :=
  ∀ e ∈ st.sessions, ∀ i ∈ e.2.received_chunks, 0 ≤ i

/-- Scenario state for C1: result of the init call of the scenario. -/
def c1Init : Except UploadError String × ServerState :=
  init_chunked_upload emptyState "sid" "a.png" 1000 2

/-- Scenario state for C1: after appending chunk 0 (AAAA) and chunk 1
(BBBB). -/
def c1St2 : ServerState :=
  (upload_chunk (upload_chunk c1Init.2 "sid" 0 "AAAA").2 "sid" 1 "BBBB").2

/-- Scenario result for C1: completing the upload with the processing
step the endpoint actually runs. -/
def c1Res : Except UploadError ExtractResult × ServerState :=
  complete_chunked_upload process_image_call c1St2 "sid"

/-- Reachable state for the C2 counterexample: one session with
declared chunk_count 2 that received index 0 twice and then index 5. -/
def c2State : ServerState :=
  (upload_chunk (upload_chunk (upload_chunk
    (init_chunked_upload emptyState "sid" "a.png" 1000 2).2
    "sid" 0 "AAAA").2 "sid" 0 "AAAA").2 "sid" 5 "CCCC").2

/-- The session stored in c2State. -/
def c2Session : UploadSession :=
  (assocLookup c2State.sessions "sid").getD ⟨"", 0, 0, [], ""⟩

/-- Small reachable state used by the C2 witness. -/
def c2WitnessState : ServerState :=
  (upload_chunk (init_chunked_upload emptyState "wid" "b.png" 500 1).2 "wid" 0 "XX").2

/-- Result of a successful init from the empty state, for C3. -/
def c3Res : Except UploadError String × ServerState :=
  init_chunked_upload emptyState "sid" "a.png" 1000 2

/-- Concrete complete session with its reassembled temp file, for the
C4 witness. -/
def c4State : ServerState :=
  { sessions := [("sid", ⟨"a.png", 1000, 2, [0, 1], "/tmp/upload_sid"⟩)]
    files := [("/tmp/upload_sid", "AAAABBBB")] }

/-- Concrete session that received 1 of 2 chunks, for the C5 witness. -/
def c5State : ServerState :=
  { sessions := [("sid", ⟨"a.png", 1000, 2, [0], "/tmp/upload_sid"⟩)]
    files := [("/tmp/upload_sid", "AAAA")] }

/-- Concrete fresh session with no chunks yet, for the C9 witness. -/
def c9State : ServerState :=
  { sessions := [("sid", ⟨"a.png", 1000, 2, [], "/tmp/upload_sid"⟩)], files := [] }

/-! ### Map lemmas -/

theorem assocLookup_set_self {β : Type} (l : List (String × β)) (p : String) (c : β) :
    assocLookup (assocSet l p c) p = some c := by
  simp [assocSet, assocLookup]

theorem assocLookup_remove_self {β : Type} (l : List (String × β)) (p : String) :
    assocLookup (assocRemove l p) p = none := by
  induction l with
  | nil => rfl
  | cons e rest ih =>
      simp only [assocRemove, List.filter_cons] at ih ⊢
      by_cases h : e.1 = p
      · simp only [h, bne_self_eq_false, Bool.false_eq_true, if_false]
        exact ih
      · have hb : (e.1 != p) = true := bne_iff_ne.mpr h
        simp only [hb, if_true, assocLookup, if_neg h]
        exact ih

theorem assocLookup_remove_ne {β : Type} (l : List (String × β)) (p q : String) (h : p ≠ q) :
    assocLookup (assocRemove l p) q = assocLookup l q := by
  induction l with
  | nil => rfl
  | cons e rest ih =>
      simp only [assocRemove, List.filter_cons] at ih ⊢
      by_cases he : e.1 = p
      · simp only [he, bne_self_eq_false, Bool.false_eq_true, if_false, assocLookup, if_neg h]
        exact ih
      · have hb : (e.1 != p) = true := bne_iff_ne.mpr he
        simp only [hb, if_true, assocLookup]
        by_cases hq : e.1 = q
        · simp only [if_pos hq]
        · simp only [if_neg hq]; exact ih

theorem assocLookup_set_ne {β : Type} (l : List (String × β)) (p : String) (c : β)
    (q : String) (h : p ≠ q) : assocLookup (assocSet l p c) q = assocLookup l q := by
  simp only [assocSet, assocLookup, if_neg h]
  exact assocLookup_remove_ne l p q h

theorem mem_of_mem_assocRemove {β : Type} {l : List (String × β)} {p : String}
    {e : String × β} (h : e ∈ assocRemove l p) : e ∈ l :=
  (List.mem_filter.mp h).1

theorem mem_assocSet {β : Type} {l : List (String × β)} {p : String} {c : β}
    {e : String × β} (h : e ∈ assocSet l p c) : e = (p, c) ∨ e ∈ l := by
  rcases List.mem_cons.mp h with h1 | h1
  · exact Or.inl h1
  · exact Or.inr (mem_of_mem_assocRemove h1)

theorem mem_of_assocLookup {β : Type} {l : List (String × β)} {p : String} {c : β}
    (h : assocLookup l p = some c) : (p, c) ∈ l := by
  induction l with
  | nil => simp [assocLookup] at h
  | cons e rest ih =>
      simp only [assocLookup] at h
      by_cases he : e.1 = p
      · simp only [if_pos he] at h
        cases e with
        | mk k v =>
            obtain rfl : k = p := he
            obtain rfl : v = c := Option.some.inj h
            exact List.mem_cons_self _ _
      · simp only [if_neg he] at h
        exact List.mem_cons_of_mem _ (ih h)

theorem assocLookup_fsAppend_self (fs : List (String × String)) (p b : String) :
    assocLookup (fsAppend fs p b) p = some ((assocLookup fs p).getD "" ++ b) := by
  unfold fsAppend
  cases h : assocLookup fs p <;> simp [h, assocLookup_set_self]

/-! ### C1 -/

/-- C1: the scenario init(a.png, 1000, 2), append(0, AAAA),
append(1, BBBB), complete reassembles the 8-byte file AAAABBBB, and a
generic successful processing step would receive exactly those bytes;
but the processing step the endpoint actually runs fails, because
process_image is not a method of OCRProcessor, so complete returns a
processing error (a 500 response), not a successful extraction result.
Cleanup still happens: the session and the file are gone afterwards.
This refutes the claimed non-nil extraction result and documents the
code bug. -/
theorem C1_scenario_process_image_missing :
    c1Init.1 = .ok "sid" ∧
    assocLookup c1St2.files (pathJoin UPLOAD_FOLDER "upload_sid") = some "AAAABBBB" ∧
    ("AAAABBBB" : String).length = 8 ∧
    (complete_chunked_upload (fun c => Except.ok c) c1St2 "sid").1 = .ok "AAAABBBB" ∧
    OCRProcessorMethods.contains "process_image" = false ∧
    c1Res.1 = .error (.processingFailed
      "AttributeError: OCRProcessor object has no attribute process_image") ∧
    c1Res.2.sessions = [] ∧ c1Res.2.files = [] := by decide

/-! ### C2 -/

theorem init_sessions_cases (st : ServerState) (fresh n : String) (fs cc : Int)
    (e : String × UploadSession)
    (he : e ∈ (init_chunked_upload st fresh n fs cc).2.sessions) :
    e ∈ st.sessions ∨ e.2.received_chunks = [] := by
  simp only [init_chunked_upload] at he
  split_ifs at he with h1 h2
  · exact Or.inl he
  · exact Or.inl he
  · rcases mem_assocSet he with rfl | he2
    · exact Or.inr rfl
    · exact Or.inl he2

theorem chunk_sessions_cases (st : ServerState) (id : String) (idx : Int) (bytes : String)
    (e : String × UploadSession)
    (he : e ∈ (upload_chunk st id idx bytes).2.sessions) :
    e ∈ st.sessions ∨
      ∃ sess : UploadSession, assocLookup st.sessions id = some sess ∧ ¬ idx < 0 ∧
        e.2.received_chunks = sess.received_chunks ++ [idx] := by
  rcases hma : assocLookup st.sessions id with _ | sess
  · simp only [upload_chunk, hma] at he
    exact Or.inl he
  · simp only [upload_chunk, hma] at he
    split_ifs at he with hneg
    · exact Or.inl he
    · rcases mem_assocSet he with rfl | he2
      · exact Or.inr ⟨sess, rfl, hneg, rfl⟩
      · exact Or.inl he2

theorem complete_sessions_sub {α : Type} (procFn : String → Except String α)
    (st : ServerState) (id : String) (e : String × UploadSession)
    (he : e ∈ (complete_chunked_upload procFn st id).2.sessions) : e ∈ st.sessions := by
  rcases hma : assocLookup st.sessions id with _ | sess
  · simp only [complete_chunked_upload, hma] at he
    exact he
  · simp only [complete_chunked_upload, hma] at he
    split_ifs at he with hlen
    · exact he
    · rcases hf : assocLookup st.files sess.temp_path with _ | content
      · simp only [hf] at he
        exact he
      · simp only [hf] at he
        rcases hp : procFn content with r | er
        · simp only [hp] at he
          exact mem_of_mem_assocRemove he
        · simp only [hp] at he
          exact mem_of_mem_assocRemove he

theorem cancel_sessions_sub (st : ServerState) (id : String) (e : String × UploadSession)
    (he : e ∈ (cancel_chunked_upload st id).2.sessions) : e ∈ st.sessions := by
  rcases hma : assocLookup st.sessions id with _ | sess
  · simp only [cancel_chunked_upload, hma] at he
    exact he
  · simp only [cancel_chunked_upload, hma] at he
    exact mem_of_mem_assocRemove he

theorem receivedNonneg_preserved {s s2 : ServerState} (hstep : UploadStep s s2)
    (h : ReceivedNonneg s) : ReceivedNonneg s2 := by
  cases hstep with
  | init fresh filename filesize chunk_count =>
      intro e he i hi
      rcases init_sessions_cases s fresh filename filesize chunk_count e he with he2 | hrc
      · exact h e he2 i hi
      · rw [hrc] at hi
        simp at hi
  | chunk id idx bytes =>
      intro e he i hi
      rcases chunk_sessions_cases s id idx bytes e he with he2 | ⟨sess, hma, hneg, hrc⟩
      · exact h e he2 i hi
      · rw [hrc] at hi
        rcases List.mem_append.mp hi with hi1 | hi1
        · exact h (id, sess) (mem_of_assocLookup hma) i hi1
        · have hix : i = idx := by simpa using hi1
          subst hix
          exact le_of_not_lt hneg
  | complete id procFn =>
      intro e he i hi
      exact h e (complete_sessions_sub procFn s id e he) i hi
  | cancel id =>
      intro e he i hi
      exact h e (cancel_sessions_sub s id e he) i hi

/-- C2 counterexample: a reachable state whose session has received
index list [0, 0, 5] with declared chunk_count 2 — the recorded indices
are neither unique nor inside the declared range, refuting the claimed
invariant (the store deduplicates nothing and checks no upper bound). -/
theorem C2_claimed_invariant_fails :
    Reachable c2State ∧
    assocLookup c2State.sessions "sid" = some c2Session ∧
    c2Session.received_chunks = [0, 0, 5] ∧
    c2Session.chunk_count = 2 ∧
    ¬ (c2Session.received_chunks.Nodup ∧
        ∀ i ∈ c2Session.received_chunks, 0 ≤ i ∧ i < c2Session.chunk_count) := by
  refine ⟨?_, by decide, by decide, by decide, by decide⟩
  exact Reachable.step (Reachable.step (Reachable.step (Reachable.step Reachable.empty
    (UploadStep.init emptyState "sid" "a.png" 1000 2))
    (UploadStep.chunk _ "sid" 0 "AAAA"))
    (UploadStep.chunk _ "sid" 0 "AAAA"))
    (UploadStep.chunk _ "sid" 5 "CCCC")

/-- C2 (amended): in every reachable server state, every recorded chunk
index of every live session is nonnegative — the only part of the
claimed range invariant that upload_chunk actually enforces; duplicates
and indices at or above chunk_count can be recorded. -/
theorem C2_received_indices_nonneg (st : ServerState) (h : Reachable st) :
    ∀ e ∈ st.sessions, ∀ i ∈ e.2.received_chunks, 0 ≤ i := by
  induction h with
  | empty => intro e he i hi; simp [emptyState] at he
  | step hr hstep ih => exact receivedNonneg_preserved hstep ih

/-- Witness for C2: the amended invariant applied to a concrete
reachable state holding one session with received index 0. -/
theorem C2_received_indices_nonneg_witness :
    ("wid", (⟨"b.png", 500, 1, [0], "/tmp/upload_wid"⟩ : UploadSession)) ∈
      c2WitnessState.sessions ∧
    (0 : Int) ∈ [(0 : Int)] ∧ (0 : Int) ≤ 0 :=
  ⟨by decide, by decide,
   C2_received_indices_nonneg c2WitnessState
     (Reachable.step (Reachable.step Reachable.empty
       (UploadStep.init emptyState "wid" "b.png" 500 1))
       (UploadStep.chunk _ "wid" 0 "XX"))
     ("wid", ⟨"b.png", 500, 1, [0], "/tmp/upload_wid"⟩) (by decide) 0 (by decide)⟩

/-! ### C3 -/

/-- C3 counterexample: a successful init creates the session record and
returns the session id, but allocates NO destination file — the file
system is untouched (the file is only created by the first append),
refuting the claimed fresh empty destination file. -/
theorem C3_no_file_allocated_at_init :
    c3Res.1 = .ok "sid" ∧
    (assocLookup c3Res.2.sessions "sid").map (fun s => s.temp_path) =
      some (pathJoin UPLOAD_FOLDER ("upload_" ++ "sid")) ∧
    c3Res.2.files = [] ∧
    assocLookup c3Res.2.files (pathJoin UPLOAD_FOLDER ("upload_" ++ "sid")) = none := by
  decide

/-- C3 (amended): init fails with InvalidInput on an empty or
disallowed sanitized filename, or when the declared size exceeds the
configured maximum, leaving the state untouched (no session, no bytes);
on success it returns the fresh id, leaves the file system unchanged
(the destination file is created lazily by the first append), records
the session with an empty received list and the fresh temp path, and
perturbs no other session. -/
theorem C3_init_contract (st : ServerState) (fresh filename : String)
    (filesize chunk_count : Int) :
    (((secure_filename filename).data.isEmpty = true ∨
        allowed_file (secure_filename filename) = false) →
      init_chunked_upload st fresh filename filesize chunk_count =
        (.error (.invalidInput "Invalid filename or file type"), st)) ∧
    ((secure_filename filename).data.isEmpty = false →
      allowed_file (secure_filename filename) = true →
      MAX_FILE_SIZE < filesize →
      init_chunked_upload st fresh filename filesize chunk_count =
        (.error (.invalidInput "File too large"), st)) ∧
    ((secure_filename filename).data.isEmpty = false →
      allowed_file (secure_filename filename) = true →
      filesize ≤ MAX_FILE_SIZE →
      (init_chunked_upload st fresh filename filesize chunk_count).1 = .ok fresh ∧
      (init_chunked_upload st fresh filename filesize chunk_count).2.files = st.files ∧
      assocLookup (init_chunked_upload st fresh filename filesize chunk_count).2.sessions
          fresh =
        some ⟨secure_filename filename, filesize, chunk_count, [],
          pathJoin UPLOAD_FOLDER ("upload_" ++ fresh)⟩ ∧
      (∀ q : String, q ≠ fresh →
        assocLookup (init_chunked_upload st fresh filename filesize chunk_count).2.sessions q =
          assocLookup st.sessions q)) := by
  refine ⟨?_, ?_, ?_⟩
  · intro h
    unfold init_chunked_upload
    rcases h with h | h
    · simp [h]
    · simp [h]
  · intro h1 h2 h3
    unfold init_chunked_upload
    simp [h1, h2, if_pos h3]
  · intro h1 h2 h3
    unfold init_chunked_upload
    simp only [h1, h2, Bool.not_true, Bool.or_false, Bool.false_eq_true, if_false,
      if_neg (not_lt.mpr h3)]
    exact ⟨trivial, trivial, assocLookup_set_self _ _ _,
      fun q hq => assocLookup_set_ne _ _ _ _ (Ne.symm hq)⟩

/-- Witness for C3: the three branches of the init contract at concrete
inputs — empty filename, oversized declared size, and a successful
init. -/
theorem C3_init_contract_witness :
    init_chunked_upload emptyState "sid" "" 0 0 =
      (.error (.invalidInput "Invalid filename or file type"), emptyState) ∧
    init_chunked_upload emptyState "sid" "a.png" (MAX_FILE_SIZE + 1) 2 =
      (.error (.invalidInput "File too large"), emptyState) ∧
    (init_chunked_upload emptyState "sid" "a.png" 1000 2).1 = .ok "sid" ∧
    (init_chunked_upload emptyState "sid" "a.png" 1000 2).2.files = emptyState.files ∧
    assocLookup (init_chunked_upload emptyState "sid" "a.png" 1000 2).2.sessions "sid" =
      some ⟨secure_filename "a.png", 1000, 2, [], pathJoin UPLOAD_FOLDER ("upload_" ++ "sid")⟩ :=
  ⟨(C3_init_contract emptyState "sid" "" 0 0).1 (Or.inl (by decide)),
   (C3_init_contract emptyState "sid" "a.png" (MAX_FILE_SIZE + 1) 2).2.1
     (by decide) (by decide) (by decide),
   ((C3_init_contract emptyState "sid" "a.png" 1000 2).2.2 (by decide) (by decide)
     (by decide)).1,
   ((C3_init_contract emptyState "sid" "a.png" 1000 2).2.2 (by decide) (by decide)
     (by decide)).2.1,
   ((C3_init_contract emptyState "sid" "a.png" 1000 2).2.2 (by decide) (by decide)
     (by decide)).2.2.1⟩

/-! ### C4 -/

/-- C4: completing a fully received session whose temp file exists,
with a processing step that fails, surfaces the processing error while
still deleting both the renamed final file and the temp path and
removing the session — the cleanup-on-both-paths contract. -/
theorem C4_cleanup_on_processing_failure {α : Type} (procFn : String → Except String α)
    (st : ServerState) (id : String) (sess : UploadSession) (content e : String)
    (h1 : assocLookup st.sessions id = some sess)
    (h2 : (sess.received_chunks.length : Int) = sess.chunk_count)
    (h3 : assocLookup st.files sess.temp_path = some content)
    (h4 : procFn content = .error e) :
    (complete_chunked_upload procFn st id).1 = .error (.processingFailed e) ∧
    assocLookup (complete_chunked_upload procFn st id).2.sessions id = none ∧
    assocLookup (complete_chunked_upload procFn st id).2.files
      (pathJoin UPLOAD_FOLDER sess.filename) = none ∧
    assocLookup (complete_chunked_upload procFn st id).2.files sess.temp_path = none := by
  unfold complete_chunked_upload
  rw [h1]
  simp only [if_neg (not_not_intro h2), h3, h4]
  refine ⟨trivial, assocLookup_remove_self _ _, assocLookup_remove_self _ _, ?_⟩
  by_cases hp : sess.temp_path = pathJoin UPLOAD_FOLDER sess.filename
  · rw [hp]; exact assocLookup_remove_self _ _
  · rw [assocLookup_remove_ne _ _ _ (Ne.symm hp),
        assocLookup_set_ne _ _ _ _ (Ne.symm hp),
        assocLookup_remove_self]

/-- Witness for C4: a concrete complete session whose processing step
fails; the error is surfaced and both the session and the files are
gone. -/
theorem C4_cleanup_on_processing_failure_witness :
    assocLookup c4State.sessions "sid" = some ⟨"a.png", 1000, 2, [0, 1], "/tmp/upload_sid"⟩ ∧
    (([0, 1] : List Int).length : Int) = 2 ∧
    assocLookup c4State.files "/tmp/upload_sid" = some "AAAABBBB" ∧
    ((complete_chunked_upload (fun _ => Except.error "boom") c4State "sid").1 =
        (.error (.processingFailed "boom") : Except UploadError Nat) ∧
      assocLookup (complete_chunked_upload
        (fun _ => (Except.error "boom" : Except String Nat)) c4State "sid").2.sessions "sid" =
        none ∧
      assocLookup (complete_chunked_upload
        (fun _ => (Except.error "boom" : Except String Nat)) c4State "sid").2.files
        (pathJoin UPLOAD_FOLDER "a.png") = none ∧
      assocLookup (complete_chunked_upload
        (fun _ => (Except.error "boom" : Except String Nat)) c4State "sid").2.files
        "/tmp/upload_sid" = none) :=
  ⟨by decide, by decide, by decide,
   C4_cleanup_on_processing_failure (fun _ => (Except.error "boom" : Except String Nat))
     c4State "sid" ⟨"a.png", 1000, 2, [0, 1], "/tmp/upload_sid"⟩ "AAAABBBB" "boom"
     (by decide) (by decide) (by decide) (by decide)⟩

/-! ### C5 -/

/-- C5: completing a known session whose received-chunk count differs
from the declared chunk count fails with the incomplete-upload error
carrying the exact received and total counts, and leaves the state
untouched; the equation holds for every processing function, so no
processing occurs. -/
theorem C5_incomplete_reports_counts {α : Type} (procFn : String → Except String α)
    (st : ServerState) (id : String) (sess : UploadSession)
    (h1 : assocLookup st.sessions id = some sess)
    (h2 : (sess.received_chunks.length : Int) ≠ sess.chunk_count) :
    complete_chunked_upload procFn st id =
      (.error (.incomplete sess.received_chunks.length sess.chunk_count), st) := by
  unfold complete_chunked_upload
  rw [h1]
  simp only [if_pos h2]

/-- Witness for C5: a session that received 1 of 2 chunks; complete
fails with counts 1 and 2 and the state is unchanged. -/
theorem C5_incomplete_reports_counts_witness :
    assocLookup c5State.sessions "sid" = some ⟨"a.png", 1000, 2, [0], "/tmp/upload_sid"⟩ ∧
    (([0] : List Int).length : Int) ≠ 2 ∧
    complete_chunked_upload (fun _ => Except.ok (0 : Nat)) c5State "sid" =
      (.error (.incomplete 1 2), c5State) :=
  ⟨by decide, by decide,
   C5_incomplete_reports_counts (fun _ => Except.ok (0 : Nat)) c5State "sid"
     ⟨"a.png", 1000, 2, [0], "/tmp/upload_sid"⟩ (by decide) (by decide)⟩

/-! ### C6 -/

theorem batchCollect_length {α : Type} (outcome : String → Except String α)
    (order : List String) :
    (batchCollect outcome order).1.length + (batchCollect outcome order).2.length =
      order.length := by
  induction order with
  | nil => rfl
  | cons f rest ih =>
      unfold batchCollect
      cases h : outcome f <;> (simp [h]; omega)

theorem batch_process_length {α : Type} (outcome : String → Except String α)
    (files : List String) :
    (batch_process outcome files).1.length + (batch_process outcome files).2.length =
      files.length := by
  induction files with
  | nil => rfl
  | cons f rest ih =>
      unfold batch_process
      by_cases ha : allowed_file f
      · simp only [ha, Bool.not_true, Bool.false_eq_true, if_false]
        cases h : outcome f <;> (simp [h]; omega)
      · simp only [Bool.not_eq_true] at ha
        simp [ha]
        omega

/-- C6 counterexample: the HTTP batch endpoint records a file with a
disallowed extension in the failures collection, so with one rejected
file the successes plus failures is 1 while the number of accepted
files is 0 — the rejected file is not reported separately outside the
two collections. -/
theorem C6_rejected_file_counted_in_failures :
    batch_process (fun _ => Except.ok (0 : Nat)) ["a.txt"] =
      ([], [("a.txt", "File type not allowed")]) ∧
    (["a.txt"] : List String).filter (fun f => allowed_file f) = [] ∧
    ¬ ((batch_process (fun _ => Except.ok (0 : Nat)) ["a.txt"]).1.length +
        (batch_process (fun _ => Except.ok (0 : Nat)) ["a.txt"]).2.length =
        ((["a.txt"] : List String).filter (fun f => allowed_file f)).length) := by decide

/-- C6 (amended): in the CLI batch dispatcher with continue-on-error
set, successes plus failures equals the number of dispatched files,
whatever completion order the worker pool produces; in the HTTP batch
endpoint, extension-rejected files are recorded in the failures
collection, so successes plus failures equals the total number of
submitted files rather than the number accepted. -/
theorem C6_success_plus_failure_counts :
    (∀ (α : Type) (outcome : String → Except String α) (files order : List String),
        order.Perm files →
        (batchCollect outcome order).1.length + (batchCollect outcome order).2.length =
          files.length) ∧
    (∀ (α : Type) (outcome : String → Except String α) (files : List String),
        (batch_process outcome files).1.length + (batch_process outcome files).2.length =
          files.length) :=
  ⟨fun _ outcome _ order hperm => (batchCollect_length outcome order).trans hperm.length_eq,
   fun _ outcome files => batch_process_length outcome files⟩

/-- Witness for C6: two files observed in reversed order with one
failure give one success and one failure; the endpoint loop over one
allowed and one rejected file also fills both collections. -/
theorem C6_success_plus_failure_counts_witness :
    (["b.png", "a.png"] : List String).Perm ["a.png", "b.png"] ∧
    (batchCollect (fun f => if f = "a.png" then Except.ok 0 else Except.error "boom")
        ["b.png", "a.png"]).1.length +
      (batchCollect (fun f => if f = "a.png" then Except.ok 0 else Except.error "boom")
        ["b.png", "a.png"]).2.length = (["a.png", "b.png"] : List String).length ∧
    (batch_process (fun _ => Except.ok (0 : Nat)) ["a.png", "b.txt"]).1.length +
      (batch_process (fun _ => Except.ok (0 : Nat)) ["a.png", "b.txt"]).2.length =
      (["a.png", "b.txt"] : List String).length :=
  ⟨by decide,
   C6_success_plus_failure_counts.1 Nat
     (fun f => if f = "a.png" then Except.ok 0 else Except.error "boom")
     ["a.png", "b.png"] ["b.png", "a.png"] (by decide),
   C6_success_plus_failure_counts.2 Nat (fun _ => Except.ok (0 : Nat)) ["a.png", "b.txt"]⟩

/-! ### C7 -/

theorem batchFailFast_length {α : Type} (outcome : String → Except String α)
    (order : List String) :
    (batchFailFast outcome order).1.length ≤ order.length := by
  induction order with
  | nil => simp [batchFailFast]
  | cons f rest ih =>
      unfold batchFailFast
      cases h : outcome f <;> simp [h] <;> omega

theorem batchFailFast_suffix_ignored {α : Type} (outcome : String → Except String α)
    (pre post post2 : List String) (bad e : String) (hb : outcome bad = .error e) :
    batchFailFast outcome (pre ++ bad :: post) = batchFailFast outcome (pre ++ bad :: post2) := by
  induction pre with
  | nil => simp [batchFailFast, hb]
  | cons f rest ih =>
      simp only [List.cons_append]
      unfold batchFailFast
      cases h : outcome f <;> simp [h, ih]

/-- C7: without continue-on-error, the number of collected results
never exceeds the number of dispatched files in any completion order,
and everything observed after the first failing file is discarded: the
outcome is unchanged under arbitrary replacement of the files after the
first failure. -/
theorem C7_failfast_halts_batch :
    (∀ (α : Type) (outcome : String → Except String α) (files order : List String),
        order.Perm files → (batchFailFast outcome order).1.length ≤ files.length) ∧
    (∀ (α : Type) (outcome : String → Except String α) (pre post post2 : List String)
        (bad e : String), outcome bad = .error e →
        batchFailFast outcome (pre ++ bad :: post) =
          batchFailFast outcome (pre ++ bad :: post2)) :=
  ⟨fun _ outcome _ order hperm => hperm.length_eq ▸ batchFailFast_length outcome order,
   fun _ outcome pre post post2 bad e hb =>
     batchFailFast_suffix_ignored outcome pre post post2 bad e hb⟩

/-- Witness for C7: a two-file order with one failure stays within the
bound, and a failing middle file makes the tail irrelevant. -/
theorem C7_failfast_halts_batch_witness :
    (["b.png", "a.png"] : List String).Perm ["a.png", "b.png"] ∧
    (batchFailFast (fun f => if f = "a.png" then Except.ok 0 else Except.error "boom")
        ["b.png", "a.png"]).1.length ≤ (["a.png", "b.png"] : List String).length ∧
    ((fun f => if f = "b.png" then Except.error "boom" else Except.ok (0 : Nat)) "b.png" =
        .error "boom" ∧
      batchFailFast (fun f => if f = "b.png" then Except.error "boom" else Except.ok (0 : Nat))
          (["a.png"] ++ "b.png" :: ["c.png"]) =
        batchFailFast (fun f => if f = "b.png" then Except.error "boom" else Except.ok (0 : Nat))
          (["a.png"] ++ "b.png" :: ["d.png", "e.png"])) :=
  ⟨by decide,
   C7_failfast_halts_batch.1 Nat
     (fun f => if f = "a.png" then Except.ok 0 else Except.error "boom")
     ["a.png", "b.png"] ["b.png", "a.png"] (by decide),
   by decide,
   C7_failfast_halts_batch.2 Nat
     (fun f => if f = "b.png" then Except.error "boom" else Except.ok (0 : Nat))
     ["a.png"] ["c.png"] ["d.png", "e.png"] "b.png" "boom" (by decide)⟩

/-! ### C8 -/

theorem extract_text_mkOkEnv (text : String) (confs : List Int) (p l c : String) :
    extract_text (mkOkEnv text confs) p l c false =
      { text := pyStrip text
        confidence := pyRound2 (avgConfidence confs)
        word_count := (pySplitWs text).length
        character_count := text.length
        language := l
        config := c
        error := none } := rfl

/-- C8 counterexample: for confidences [1, 1, 2] the reported value is
1.33 (the mean rounded to two decimals) while the arithmetic mean of
the positive confidences is 4/3, so the reported average confidence is
not the arithmetic mean itself. -/
theorem C8_reported_value_is_rounded :
    (extract_text (mkOkEnv "t" [1, 1, 2]) "p" "eng" "--psm 6" false).confidence = 133/100 ∧
    specMeanPositive [1, 1, 2] = 4/3 ∧
    (133/100 : Rat) ≠ 4/3 := by
  refine ⟨?_, by norm_num [specMeanPositive], by norm_num⟩
  rw [extract_text_mkOkEnv]
  show pyRound2 (avgConfidence [1, 1, 2]) = 133/100
  have h1 : avgConfidence [1, 1, 2] = 4/3 := by norm_num [avgConfidence]
  rw [h1]
  have h2 : ((4 : Rat)/3 * 100).floor = 133 := by norm_num [Rat.floor]
  unfold pyRound2 roundHalfEven
  rw [h2]
  norm_num

/-- C8 (amended): the reported confidence is the arithmetic mean of
exactly the confidences strictly greater than zero, rounded to two
decimal places, and 0 when no confidence is positive; the scenario
[0, 0, 80, 60] yields exactly 70. -/
theorem C8_mean_of_positive_confidences :
    (∀ confs : List Int,
        avgConfidence confs =
          if (confs.filter fun c => decide (0 < c)).isEmpty then 0
          else specMeanPositive confs) ∧
    (∀ (text : String) (confs : List Int) (p l c : String),
        (extract_text (mkOkEnv text confs) p l c false).confidence =
          pyRound2 (avgConfidence confs)) ∧
    (extract_text (mkOkEnv "hi" [0, 0, 80, 60]) "p" "eng" "--psm 6" false).confidence = 70 := by
  refine ⟨fun confs => rfl, fun text confs p l c => by rw [extract_text_mkOkEnv], ?_⟩
  rw [extract_text_mkOkEnv]
  show pyRound2 (avgConfidence [0, 0, 80, 60]) = 70
  have h1 : avgConfidence [0, 0, 80, 60] = 70 := by norm_num [avgConfidence]
  rw [h1]
  have h2 : ((70 : Rat) * 100).floor = 7000 := by norm_num [Rat.floor]
  unfold pyRound2 roundHalfEven
  rw [h2]
  norm_num

/-! ### C9 -/

/-- C9: for any live session and nonnegative index, appending the same
chunk index twice appends the bytes to the backing file both times (the
file ends with both payloads) and records the index twice — the store
does not deduplicate by index. -/
theorem C9_same_index_appends_twice (st : ServerState) (id : String) (sess : UploadSession)
    (idx : Int) (b1 b2 : String)
    (h1 : assocLookup st.sessions id = some sess)
    (h2 : 0 ≤ idx) :
    assocLookup (upload_chunk (upload_chunk st id idx b1).2 id idx b2).2.files sess.temp_path =
      some (((assocLookup st.files sess.temp_path).getD "" ++ b1) ++ b2) ∧
    (assocLookup (upload_chunk (upload_chunk st id idx b1).2 id idx b2).2.sessions id).map
        (fun s => s.received_chunks) =
      some (sess.received_chunks ++ [idx, idx]) := by
  have hnlt : ¬ idx < 0 := not_lt.mpr h2
  unfold upload_chunk
  rw [h1]
  simp only [if_neg hnlt, assocLookup_set_self, assocLookup_fsAppend_self]
  constructor <;> simp [List.append_assoc]

/-- Witness for C9: a fresh session receives index 0 twice; the file
holds both payloads and the received list is [0, 0]. -/
theorem C9_same_index_appends_twice_witness :
    assocLookup c9State.sessions "sid" = some ⟨"a.png", 1000, 2, [], "/tmp/upload_sid"⟩ ∧
    (0 : Int) ≤ 0 ∧
    (assocLookup (upload_chunk (upload_chunk c9State "sid" 0 "AA").2 "sid" 0 "BB").2.files
        "/tmp/upload_sid" =
      some (((assocLookup c9State.files "/tmp/upload_sid").getD "" ++ "AA") ++ "BB") ∧
    (assocLookup (upload_chunk (upload_chunk c9State "sid" 0 "AA").2 "sid" 0 "BB").2.sessions
        "sid").map (fun s => s.received_chunks) = some (([] : List Int) ++ [0, 0])) :=
  ⟨by decide, by decide,
   C9_same_index_appends_twice c9State "sid" ⟨"a.png", 1000, 2, [], "/tmp/upload_sid"⟩ 0 "AA" "BB"
     (by decide) (by decide)⟩

/-! ### C10 -/

/-- C10: extract_text is total at its interface — for every
environment of external calls (each of which may fail), every path,
language, config and preprocess flag, it returns a result record, and
either the record carries no error, or it carries an error string
together with empty text and confidence 0. -/
theorem C10_extract_text_total (Img : Type) (env : OcrEnv Img) (p l c : String) (pre : Bool) :
    (extract_text env p l c pre).error = none ∨
    ((extract_text env p l c pre).error.isSome = true ∧
      (extract_text env p l c pre).text = "" ∧
      (extract_text env p l c pre).confidence = 0) := by
  unfold extract_text
  cases h1 : (if pre then env.preprocessImage p else env.imageOpen p) with
  | error e => right; simp [h1, Except.bind, errorResult]
  | ok img =>
      cases h2 : env.imageToString img l c with
      | error e => right; simp [h1, h2, Except.bind, errorResult]
      | ok text =>
          cases h3 : env.imageToData img l c with
          | error e => right; simp [h1, h2, h3, Except.bind, errorResult]
          | ok data => left; simp [h1, h2, h3, Except.bind]

end OcrGaby
